import Mathlib

/-!
Verification of the document comparison service
(`src/backend/services/document_comparison_service.py`).

The comparison layer of the service is pure, and is modelled here as Lean
functions: `compare_documents` together with its helpers
`_calculate_text_similarity`, `_split_into_sentences` and
`_generate_comparison_summary`.  Python strings are Lean `String`s; the
analysis-result `dict` inputs, which the code reads only through defaulted
`dict.get` calls, are records of `Option` fields; the floats arising in this
code (Jaccard ratios of small integer cardinalities, and decimal rounding for
display) are modelled as exact rationals; raised exceptions are modelled with
`Except String`.
-/

namespace DocComp

/-- Characters treated as whitespace by Python's `str.split()` and
`str.strip()`: ASCII whitespace plus the usual Unicode space characters. -/
def isPySpace (c : Char) : Bool :=
  c = ' ' || c = '\t' || c = '\n' || c = '\r' || c = '\x0b' || c = '\x0c' ||
  c = '\x1c' || c = '\x1d' || c = '\x1e' || c = '\x1f' || c = '\x85' || c = '\xa0' ||
  c = ' ' || c = ' ' || c = ' ' || c = ' ' || c = ' ' ||
  c = ' ' || c = ' ' || c = ' ' || c = ' ' || c = ' ' ||
  c = ' ' || c = ' ' || c = ' ' || c = ' ' || c = ' ' ||
  c = ' ' || c = '　'

/-- The separator characters of the sentence-splitting pattern `[.!?]+`. -/
def isBoundaryChar (c : Char) : Bool :=
  c = '.' || c = '!' || c = '?'

/-- Push a character onto the front of the first fragment of a fragment
list. -/
def consOntoHead (c : Char) : List (List Char) → List (List Char)
  | [] => [[c]]
  | f :: fs => (c :: f) :: fs

/-- Split a character list at every maximal run of characters satisfying `p`,
keeping the empty fragments produced at the ends: the behaviour of
`re.split` with a `[...]+` character-class pattern.  The flag records whether
the previous character was a separator, so a whole run of separators yields a
single boundary. -/
def splitRunsGo (p : Char → Bool) : Bool → List Char → List (List Char)
  | _, [] => [[]]
  | inRun, c :: cs =>
    if p c then
      if inRun then splitRunsGo p true cs
      else [] :: splitRunsGo p true cs
    else consOntoHead c (splitRunsGo p false cs)

/-- Split at maximal separator runs (`re.split(r'[...]+', text)` on the
character list of `text`). -/
def splitRuns (p : Char → Bool) (cs : List Char) : List (List Char) :=
  splitRunsGo p false cs

/-- Python `str.strip()` on a character list: drop whitespace from both
ends. -/
def stripChars (l : List Char) : List Char :=
  List.rdropWhile isPySpace (l.dropWhile isPySpace)

/-- Python `str.strip()`. -/
def pyStrip (s : String) : String :=
  String.mk (stripChars s.data)

/-- Python `str.lower()`; the ASCII case mapping, which covers the tokens this
service compares. -/
def pyLower (s : String) : String :=
  String.mk (s.data.map Char.toLower)

/-- Python `str.split()` with no separator argument: split on runs of
whitespace and drop all empty fragments. -/
def pySplitWhitespace (s : String) : List String :=
  ((splitRuns isPySpace s.data).filter (fun f => !f.isEmpty)).map String.mk

/-- The token set `set(text.lower().split())` built by
`_calculate_text_similarity`. -/
def wordSet (text : String) : Finset String :=
  (pySplitWhitespace (pyLower text)).toFinset

/-- `_calculate_text_similarity` (lines 192-208 of the source): word-overlap
similarity.  Python `not text` on a string is the test for the empty
string. -/
def _calculate_text_similarity (text1 text2 : String) : ℚ :=
  if text1 = "" ∧ text2 = "" then 1
  else if text1 = "" ∨ text2 = "" then 0
  else
    let words1 := wordSet text1
    let words2 := wordSet text2
    let intersection := words1 ∩ words2
    let union := words1 ∪ words2
    if union.card = 0 then 1
    else (intersection.card : ℚ) / (union.card : ℚ)

/-- `_split_into_sentences` (lines 210-215): `re.split(r'[.!?]+', text)`,
strip each fragment, drop the fragments that are empty after stripping. -/
def _split_into_sentences (text : String) : List String :=
  (((splitRuns isBoundaryChar text.data).map stripChars).filter
    (fun f => !f.isEmpty)).map String.mk

/-- Python `set(xs)` over strings, as the duplicate-free list `xs.dedup`.  A
Python set iterates in unspecified order; `dedup` fixes one concrete order,
which is all the comparison code relies on. -/
def pySet (xs : List String) : List String :=
  xs.dedup

/-- `list(set(a) - set(b))`. -/
def pySetDiff (a b : List String) : List String :=
  (pySet a).filter (fun s => decide (s ∉ b))

/-- `list(set(a) & set(b))`. -/
def pySetInter (a b : List String) : List String :=
  (pySet a).filter (fun s => decide (s ∈ b))

/-- A table of an analysis result.  `compare_documents` only ever takes the
length of the table list, so the cell payload does not matter to the
comparator. -/
structure Table where
  row_count : ℤ := 0
  column_count : ℤ := 0

/-- An analysis result as consumed by `compare_documents`.  Every field is
optional because the Python code reads each key with a defaulted
`dict.get`. -/
structure AnalysisResult where
  filename : Option String := none
  content : Option String := none
  page_count : Option ℤ := none
  tables : Option (List Table) := none

/-- The per-document block of the comparison report. -/
structure DocumentSummary where
  filename : String
  page_count : ℤ
  table_count : ℕ
  content_length : ℕ

/-- The `differences` block of the comparison report. -/
structure Differences where
  added_content : List String
  removed_content : List String
  common_content_count : ℕ
  total_added : ℕ
  total_removed : ℕ

/-- The `structure_comparison` block of the comparison report. -/
structure StructureComparison where
  page_count_diff : ℤ
  table_count_diff : ℤ
  doc1_pages : ℤ
  doc2_pages : ℤ
  doc1_tables : ℕ
  doc2_tables : ℕ

/-- The two keys of the `structure_diff` dict that
`_generate_comparison_summary` reads with `.get(key, 0)`; absence is modelled
by `none`. -/
structure StructureDiffDict where
  page_count_diff : Option ℤ := none
  table_count_diff : Option ℤ := none

/-- The comparison report returned by `compare_documents`. -/
structure ComparisonReport where
  document1 : DocumentSummary
  document2 : DocumentSummary
  similarity_score : ℚ
  differences : Differences
  structure_comparison : StructureComparison
  summary : String

/-- Mathematical floor of a rational, computed with `Int.fdiv` (floor
division; the denominator is positive). -/
def floorQ (x : ℚ) : ℤ :=
  x.num.fdiv x.den

/-- Python's `round` to an integer: nearest integer, ties to the even
neighbour. -/
def pyRoundHalfEven (x : ℚ) : ℤ :=
  let f := floorQ x
  let r := x - (f : ℚ)
  if r < 1 / 2 then f
  else if 1 / 2 < r then f + 1
  else if f % 2 = 0 then f else f + 1

/-- Python's `round(x, 1)`. -/
def pyRound1 (x : ℚ) : ℚ :=
  (pyRoundHalfEven (x * 10) : ℚ) / 10

/-- Decimal rendering of a tenths count: `showTenths 805 = "80.5"`. -/
def showTenths (n : ℤ) : String :=
  if n < 0 then "-" ++ (toString (n.natAbs / 10) ++ "." ++ toString (n.natAbs % 10))
  else toString (n.toNat / 10) ++ "." ++ toString (n.toNat % 10)

/-- The text an f-string produces for a float holding an exact multiple of
one tenth, such as the output of `round(x, 1)`. -/
def reprTenths (q : ℚ) : String :=
  showTenths (pyRoundHalfEven (q * 10))

/-- Python `sep.join(parts)`. -/
def pyJoin (sep : String) : List String → String
  | [] => ""
  | [x] => x
  | x :: xs => x ++ sep ++ pyJoin sep xs

/-- The suffix contributed to a space-join by a tail of parts: a joining
space before each part. -/
def tailJoin : List String → String
  | [] => ""
  | y :: ys => " " ++ y ++ tailJoin ys

/-- `_generate_comparison_summary` (lines 217-249): template assembly of the
human-readable summary. -/
def _generate_comparison_summary (similarity_score : ℚ) (added_count removed_count : ℤ)
    (structure_diff : StructureDiffDict) : String :=
  let similarity_percent := pyRound1 (similarity_score * 100)
  let parts0 := ["The documents are " ++ reprTenths similarity_percent ++
    "% similar in content."]
  let parts1 := if added_count > 0 then
      parts0 ++ ["Document 2 contains " ++ toString added_count ++
        " additional sentence(s) not found in Document 1."]
    else parts0
  let parts2 := if removed_count > 0 then
      parts1 ++ ["Document 2 is missing " ++ toString removed_count ++
        " sentence(s) that are present in Document 1."]
    else parts1
  let page_diff := structure_diff.page_count_diff.getD 0
  let parts3 := if page_diff > 0 then
      parts2 ++ ["Document 2 has " ++ toString page_diff ++
        " more page(s) than Document 1."]
    else if page_diff < 0 then
      parts2 ++ ["Document 2 has " ++ toString (abs page_diff) ++
        " fewer page(s) than Document 1."]
    else parts2
  let table_diff := structure_diff.table_count_diff.getD 0
  let parts4 := if table_diff > 0 then
      parts3 ++ ["Document 2 has " ++ toString table_diff ++
        " more table(s) than Document 1."]
    else if table_diff < 0 then
      parts3 ++ ["Document 2 has " ++ toString (abs table_diff) ++
        " fewer table(s) than Document 1."]
    else parts3
  let parts5 := if similarity_score > 0.8 then
      parts4 ++ ["The documents are very similar."]
    else if similarity_score > 0.5 then
      parts4 ++ ["The documents have moderate similarity."]
    else
      parts4 ++ ["The documents are quite different."]
  pyJoin " " parts5

/-- The `try`-block body of `compare_documents` (lines 124-186).  In this
typed model every step is total, so the body always returns `Except.ok`; it
is stated in `Except` because the Python body may raise on malformed dynamic
input, and the caller wraps it in an exception handler. -/
def compareBody (doc1_analysis doc2_analysis : AnalysisResult) :
    Except String ComparisonReport :=
  let doc1_content := doc1_analysis.content.getD ""
  let doc2_content := doc2_analysis.content.getD ""
  let similarity_score := _calculate_text_similarity doc1_content doc2_content
  let doc1_sentences := _split_into_sentences doc1_content
  let doc2_sentences := _split_into_sentences doc2_content
  let added_sentences := pySetDiff doc2_sentences doc1_sentences
  let removed_sentences := pySetDiff doc1_sentences doc2_sentences
  let common_sentences := pySetInter doc1_sentences doc2_sentences
  let structure_comparison : StructureComparison :=
    { page_count_diff := doc2_analysis.page_count.getD 0 - doc1_analysis.page_count.getD 0
      table_count_diff := ((doc2_analysis.tables.getD []).length : ℤ) -
        ((doc1_analysis.tables.getD []).length : ℤ)
      doc1_pages := doc1_analysis.page_count.getD 0
      doc2_pages := doc2_analysis.page_count.getD 0
      doc1_tables := (doc1_analysis.tables.getD []).length
      doc2_tables := (doc2_analysis.tables.getD []).length }
  Except.ok
    { document1 :=
        { filename := doc1_analysis.filename.getD "Document 1"
          page_count := doc1_analysis.page_count.getD 0
          table_count := (doc1_analysis.tables.getD []).length
          content_length := doc1_content.length }
      document2 :=
        { filename := doc2_analysis.filename.getD "Document 2"
          page_count := doc2_analysis.page_count.getD 0
          table_count := (doc2_analysis.tables.getD []).length
          content_length := doc2_content.length }
      similarity_score := similarity_score
      differences :=
        { added_content := added_sentences.take 10
          removed_content := removed_sentences.take 10
          common_content_count := common_sentences.length
          total_added := added_sentences.length
          total_removed := removed_sentences.length }
      structure_comparison := structure_comparison
      summary := _generate_comparison_summary similarity_score
        (added_sentences.length : ℤ) (removed_sentences.length : ℤ)
        { page_count_diff := some structure_comparison.page_count_diff
          table_count_diff := some structure_comparison.table_count_diff } }

/-- The `except` clause of `compare_documents` (lines 188-190): any failure of
the body is re-raised as a single generic failure whose message wraps the
cause. -/
def wrapComparisonFailure (r : Except String ComparisonReport) :
    Except String ComparisonReport :=
  match r with
  | Except.ok v => Except.ok v
  | Except.error e => Except.error ("Failed to compare documents: " ++ e)

/-- `compare_documents` (lines 113-190): the body guarded by the top-level
exception handler. -/
def compare_documents (doc1_analysis doc2_analysis : AnalysisResult) :
    Except String ComparisonReport :=
  wrapComparisonFailure (compareBody doc1_analysis doc2_analysis)

/-- Jaccard index of two finite token sets, written from the spec's words,
with the spec's defensive result of 1 on an empty union. -/
def jaccardIndex (w1 w2 : Finset String) : ℚ :=
  if (w1 ∪ w2).card = 0 then 1
  else ((w1 ∩ w2).card : ℚ) / ((w1 ∪ w2).card : ℚ)

/-- Splitting at every single separator character (no run merging), the naive
reading of "split the text on the characters `.`, `!`, `?`".  After dropping
empty fragments this is provably the same as the implementation's
maximal-run splitting. -/
def splitEach (p : Char → Bool) : List Char → List (List Char)
  | [] => [[]]
  | c :: cs => if p c then [] :: splitEach p cs else consOntoHead c (splitEach p cs)

/-- Sentence splitting phrased through `splitEach`: split at every boundary
character, strip each fragment, drop the empty ones. -/
def splitSentencesPerChar (text : String) : List String :=
  (((splitEach isBoundaryChar text.data).map stripChars).filter
    (fun f => !f.isEmpty)).map String.mk

/-- The closing qualitative sentence of the summary, written from the spec's
words: strict thresholds, `> 0.8` very similar, `> 0.5` moderate, otherwise
quite different. -/
def specClosingSentence (similarity_score : ℚ) : String :=
  if similarity_score > 0.8 then "The documents are very similar."
  else if similarity_score > 0.5 then "The documents have moderate similarity."
  else "The documents are quite different."

/-- The summary without its closing sentence, assembled from the spec's
numbered template: the always-present similarity sentence followed by the
optional added/removed/page/table sentences, each emitted (with a single
joining space) only when its count or delta is non-zero. -/
def specSummaryFront (similarity_score : ℚ)
    (added_count removed_count page_diff table_diff : ℤ) : String :=
  "The documents are " ++ reprTenths (pyRound1 (similarity_score * 100)) ++
    "% similar in content." ++
  (if added_count > 0 then
    " " ++ ("Document 2 contains " ++ toString added_count ++
      " additional sentence(s) not found in Document 1.")
   else "") ++
  (if removed_count > 0 then
    " " ++ ("Document 2 is missing " ++ toString removed_count ++
      " sentence(s) that are present in Document 1.")
   else "") ++
  (if page_diff > 0 then
    " " ++ ("Document 2 has " ++ toString page_diff ++ " more page(s) than Document 1.")
   else if page_diff < 0 then
    " " ++ ("Document 2 has " ++ toString (abs page_diff) ++
      " fewer page(s) than Document 1.")
   else "") ++
  (if table_diff > 0 then
    " " ++ ("Document 2 has " ++ toString table_diff ++ " more table(s) than Document 1.")
   else if table_diff < 0 then
    " " ++ ("Document 2 has " ++ toString (abs table_diff) ++
      " fewer table(s) than Document 1.")
   else "")

/-- The full summary per the spec: the template sentences followed by exactly
one closing qualitative sentence. -/
def specSummary (similarity_score : ℚ)
    (added_count removed_count page_diff table_diff : ℤ) : String :=
  specSummaryFront similarity_score added_count removed_count page_diff table_diff ++
    " " ++ specClosingSentence similarity_score

/-- C6.  The structure comparison is pure arithmetic on the defaulted inputs:
`page_count_diff` is `doc2.page_count - doc1.page_count` (possibly negative),
`table_count_diff` is `len(doc2.tables) - len(doc1.tables)`, and the four raw
counts are carried through. -/
theorem claim_C6 : ∀ d1 d2 : AnalysisResult, ∃ rep : ComparisonReport,
    compare_documents d1 d2 = Except.ok rep ∧
    rep.structure_comparison.page_count_diff =
      d2.page_count.getD 0 - d1.page_count.getD 0 ∧
    rep.structure_comparison.table_count_diff =
      ((d2.tables.getD []).length : ℤ) - ((d1.tables.getD []).length : ℤ) ∧
    rep.structure_comparison.doc1_pages = d1.page_count.getD 0 ∧
    rep.structure_comparison.doc2_pages = d2.page_count.getD 0 ∧
    rep.structure_comparison.doc1_tables = (d1.tables.getD []).length ∧
    rep.structure_comparison.doc2_tables = (d2.tables.getD []).length :=
  fun _ _ => ⟨_, rfl, rfl, rfl, rfl, rfl, rfl, rfl⟩

/-- C8.  Failure handling of `compare_documents`: an error from the body is
re-raised as the single generic failure message wrapping the cause, a
successful body value passes through untouched, and on the typed inputs of
this model the function in fact always returns a complete report — never a
partial value. -/
theorem claim_C8 :
    (∀ e : String, wrapComparisonFailure (Except.error e) =
      Except.error ("Failed to compare documents: " ++ e)) ∧
    (∀ rep : ComparisonReport, wrapComparisonFailure (Except.ok rep) = Except.ok rep) ∧
    (∀ d1 d2 : AnalysisResult, ∃ rep, compare_documents d1 d2 = Except.ok rep) :=
  ⟨fun _ => rfl, fun _ => rfl, fun _ _ => ⟨_, rfl⟩⟩

/-- C9.  Missing optional fields are treated as empty or zero through the
defaulted lookups: an analysis result with every key absent behaves exactly
like one with the explicit defaults (`"Document 1"`/`"Document 2"`, empty
content, zero pages, no tables), and comparison always succeeds. -/
theorem claim_C9 : ∀ d1 d2 : AnalysisResult,
    compare_documents {} d2 = compare_documents
      { filename := some "Document 1", content := some "",
        page_count := some 0, tables := some [] } d2 ∧
    compare_documents d1 {} = compare_documents d1
      { filename := some "Document 2", content := some "",
        page_count := some 0, tables := some [] } ∧
    ∃ rep, compare_documents d1 d2 = Except.ok rep :=
  fun _ _ => ⟨rfl, rfl, ⟨_, rfl⟩⟩

/-- C1.  `_calculate_text_similarity` returns 1 when both texts are empty, 0
when exactly one is empty, and otherwise the Jaccard index of the two sets of
lower-cased whitespace-split tokens (defensively 1 on an empty union); in
particular the similarity of `"a b"` and `"a c"` is 1/3. -/
theorem claim_C1 : ∀ t1 t2 : String,
    _calculate_text_similarity t1 t2 =
      (if t1 = "" ∧ t2 = "" then 1
       else if t1 = "" ∨ t2 = "" then 0
       else jaccardIndex (wordSet t1) (wordSet t2)) ∧
    _calculate_text_similarity "a b" "a c" = 1 / 3 := by
  intro t1 t2
  constructor
  · rfl
  · have h1 : (wordSet "a b" ∩ wordSet "a c").card = 1 := by decide
    have h2 : (wordSet "a b" ∪ wordSet "a c").card = 3 := by decide
    have hchar : _calculate_text_similarity "a b" "a c" =
        (if ("a b" : String) = "" ∧ ("a c" : String) = "" then (1 : ℚ)
         else if ("a b" : String) = "" ∨ ("a c" : String) = "" then 0
         else jaccardIndex (wordSet "a b") (wordSet "a c")) := rfl
    rw [hchar, if_neg (by decide), if_neg (by decide)]
    unfold jaccardIndex
    rw [h2, h1]
    norm_num

/-- The similarity function, written without `let` bindings: the same
computation phrased through `jaccardIndex`.  Holds by unfolding. -/
theorem calculate_text_similarity_eq (t1 t2 : String) :
    _calculate_text_similarity t1 t2 =
      if t1 = "" ∧ t2 = "" then 1
      else if t1 = "" ∨ t2 = "" then 0
      else jaccardIndex (wordSet t1) (wordSet t2) := rfl

/-- The Jaccard index is never negative. -/
theorem jaccardIndex_nonneg (w1 w2 : Finset String) : 0 ≤ jaccardIndex w1 w2 := by
  unfold jaccardIndex
  split_ifs
  · norm_num
  · positivity

/-- The Jaccard index never exceeds 1. -/
theorem jaccardIndex_le_one (w1 w2 : Finset String) : jaccardIndex w1 w2 ≤ 1 := by
  unfold jaccardIndex
  split_ifs with h
  · norm_num
  · apply div_le_one_of_le₀
    · exact_mod_cast Finset.card_le_card Finset.inter_subset_union
    · positivity

/-- The Jaccard index is symmetric. -/
theorem jaccardIndex_comm (w1 w2 : Finset String) :
    jaccardIndex w1 w2 = jaccardIndex w2 w1 := by
  unfold jaccardIndex
  rw [Finset.union_comm w1 w2, Finset.inter_comm w1 w2]

/-- C7.  The similarity measure is symmetric and always lies in the closed
interval from 0 to 1. -/
theorem claim_C7 : ∀ a b : String,
    _calculate_text_similarity a b = _calculate_text_similarity b a ∧
    0 ≤ _calculate_text_similarity a b ∧ _calculate_text_similarity a b ≤ 1 := by
  intro a b
  rw [calculate_text_similarity_eq a b, calculate_text_similarity_eq b a]
  refine ⟨?_, ?_, ?_⟩
  · by_cases ha : a = "" <;> by_cases hb : b = "" <;>
      simp [ha, hb, jaccardIndex_comm (wordSet a) (wordSet b)]
  · split_ifs
    · norm_num
    · norm_num
    · exact jaccardIndex_nonneg _ _
  · split_ifs
    · norm_num
    · norm_num
    · exact jaccardIndex_le_one _ _

/-- The length of the modelled `list(set(a) - set(b))` equals the cardinality
of the set difference of the two sets of distinct elements. -/
theorem length_pySetDiff (a b : List String) :
    (pySetDiff a b).length = (a.toFinset \ b.toFinset).card := by
  have hnd : (pySetDiff a b).Nodup := a.nodup_dedup.filter _
  rw [← List.toFinset_card_of_nodup hnd]
  congr 1
  ext s
  simp [pySetDiff, pySet, Finset.mem_sdiff, decide_eq_true_eq]

/-- The length of the modelled `list(set(a) & set(b))` equals the cardinality
of the intersection of the two sets of distinct elements. -/
theorem length_pySetInter (a b : List String) :
    (pySetInter a b).length = (a.toFinset ∩ b.toFinset).card := by
  have hnd : (pySetInter a b).Nodup := a.nodup_dedup.filter _
  rw [← List.toFinset_card_of_nodup hnd]
  congr 1
  ext s
  simp [pySetInter, pySet, Finset.mem_inter, decide_eq_true_eq]

/-- C2.  Sentence-diff bookkeeping of the report: `total_added` plus
`common_content_count` is the number of distinct sentences of document 2, and
`total_removed` plus `common_content_count` the number of distinct sentences
of document 1; the totals equal the cardinalities of the full added/removed
sets even though the displayed lists are truncated to at most 10 entries. -/
theorem claim_C2 : ∀ d1 d2 : AnalysisResult, ∃ rep : ComparisonReport,
    compare_documents d1 d2 = Except.ok rep ∧
    rep.differences.total_added + rep.differences.common_content_count =
      (_split_into_sentences (d2.content.getD "")).toFinset.card ∧
    rep.differences.total_removed + rep.differences.common_content_count =
      (_split_into_sentences (d1.content.getD "")).toFinset.card ∧
    rep.differences.total_added =
      ((_split_into_sentences (d2.content.getD "")).toFinset \
        (_split_into_sentences (d1.content.getD "")).toFinset).card ∧
    rep.differences.total_removed =
      ((_split_into_sentences (d1.content.getD "")).toFinset \
        (_split_into_sentences (d2.content.getD "")).toFinset).card ∧
    rep.differences.added_content.length ≤ 10 ∧
    rep.differences.removed_content.length ≤ 10 := by
  intro d1 d2
  refine ⟨_, rfl, ?_, ?_, ?_, ?_, ?_, ?_⟩
  · show (pySetDiff (_split_into_sentences (d2.content.getD ""))
        (_split_into_sentences (d1.content.getD ""))).length +
      (pySetInter (_split_into_sentences (d1.content.getD ""))
        (_split_into_sentences (d2.content.getD ""))).length = _
    rw [length_pySetDiff, length_pySetInter, Finset.inter_comm]
    exact Finset.card_sdiff_add_card_inter _ _
  · show (pySetDiff (_split_into_sentences (d1.content.getD ""))
        (_split_into_sentences (d2.content.getD ""))).length +
      (pySetInter (_split_into_sentences (d1.content.getD ""))
        (_split_into_sentences (d2.content.getD ""))).length = _
    rw [length_pySetDiff, length_pySetInter]
    exact Finset.card_sdiff_add_card_inter _ _
  · exact length_pySetDiff _ _
  · exact length_pySetDiff _ _
  · show ((pySetDiff (_split_into_sentences (d2.content.getD ""))
        (_split_into_sentences (d1.content.getD ""))).take 10).length ≤ 10
    rw [List.length_take]
    exact min_le_left _ _
  · show ((pySetDiff (_split_into_sentences (d1.content.getD ""))
        (_split_into_sentences (d2.content.getD ""))).take 10).length ≤ 10
    rw [List.length_take]
    exact min_le_left _ _

/-- The computable floor agrees with the integer on integer inputs. -/
theorem floorQ_intCast (n : ℤ) : floorQ (n : ℚ) = n := by
  unfold floorQ
  rw [Rat.num_intCast, Rat.den_intCast]
  simp [Int.fdiv_one]

/-- Rounding an exact integer changes nothing. -/
theorem pyRoundHalfEven_intCast (n : ℤ) : pyRoundHalfEven (n : ℚ) = n := by
  unfold pyRoundHalfEven
  rw [floorQ_intCast]
  simp only [sub_self]
  norm_num

/-- Formatting `round(x, 1)` of an exact integer value renders `n` tenths of
ten times that integer. -/
theorem reprTenths_pyRound1_int (n : ℤ) :
    reprTenths (pyRound1 (n : ℚ)) = showTenths (10 * n) := by
  have h1 : ((n : ℚ)) * 10 = ((10 * n : ℤ) : ℚ) := by push_cast; ring
  unfold pyRound1
  rw [h1, pyRoundHalfEven_intCast]
  have h2 : (((10 * n : ℤ) : ℚ)) / 10 = ((n : ℤ) : ℚ) := by push_cast; ring
  rw [h2]
  unfold reprTenths
  rw [h1, pyRoundHalfEven_intCast]

/-- Evaluation of the summary at similarity 0.8 with no sentence changes and
an empty structure diff: the strict comparison `0.8 > 0.8` fails but
`0.8 > 0.5` holds, so the closing sentence is the moderate-similarity one. -/
theorem summary_at_point_eight :
    _generate_comparison_summary (0.8) 0 0 {} =
      "The documents are 80.0% similar in content. The documents have moderate similarity." := by
  simp only [_generate_comparison_summary, Option.getD]
  norm_num
  rw [show (80 : ℚ) = ((80 : ℤ) : ℚ) by norm_num, reprTenths_pyRound1_int]
  simp only [pyJoin]
  decide

/-- Evaluation of the summary at similarity 0.81: `0.81 > 0.8` holds, so the
closing sentence is the very-similar one. -/
theorem summary_at_point_eight_one :
    _generate_comparison_summary (0.81) 0 0 {} =
      "The documents are 81.0% similar in content. The documents are very similar." := by
  simp only [_generate_comparison_summary, Option.getD]
  norm_num
  rw [show (81 : ℚ) = ((81 : ℤ) : ℚ) by norm_num, reprTenths_pyRound1_int]
  simp only [pyJoin]
  decide

/-- C5, counterexample.  At similarity exactly 0.8 (no added or removed
sentences, empty structure diff) the summary is the moderate-similarity one:
it does not end with the quite-different qualifier the claim asserts, for any
prefix. -/
theorem claim_C5_counterexample :
    _generate_comparison_summary (0.8) 0 0 {} =
      "The documents are 80.0% similar in content. The documents have moderate similarity." ∧
    ∀ front : String, _generate_comparison_summary (0.8) 0 0 {} ≠
      front ++ "The documents are quite different." := by
  refine ⟨summary_at_point_eight, ?_⟩
  intro front h
  rw [summary_at_point_eight] at h
  apply_fun (fun s : String => s.data.reverse.take 34) at h
  have hq : ("The documents are quite different.".data.reverse).length = 34 := by decide
  rw [show (front ++ "The documents are quite different.").data =
      front.data ++ "The documents are quite different.".data from rfl,
    List.reverse_append, ← hq, List.take_left] at h
  exact absurd h (by decide)

/-- C5, amended.  At similarity exactly 0.8 the strict threshold `> 0.8`
fails but `> 0.5` holds, so the summary ends with the moderate-similarity
qualifier (not the very-similar one); at 0.81 it ends with the very-similar
qualifier. -/
theorem claim_C5 :
    _generate_comparison_summary (0.8) 0 0 {} =
      "The documents are 80.0% similar in content. " ++
        "The documents have moderate similarity." ∧
    _generate_comparison_summary (0.81) 0 0 {} =
      "The documents are 81.0% similar in content. " ++
        "The documents are very similar." := by
  constructor
  · rw [summary_at_point_eight]; decide
  · rw [summary_at_point_eight_one]; decide

/-- `consOntoHead` never produces an empty fragment list. -/
theorem consOntoHead_ne_nil (c : Char) (l : List (List Char)) : consOntoHead c l ≠ [] := by
  cases l <;> simp [consOntoHead]

/-- The run splitter never produces an empty fragment list. -/
theorem splitRunsGo_ne_nil (p : Char → Bool) :
    ∀ (inRun : Bool) (cs : List Char), splitRunsGo p inRun cs ≠ [] := by
  intro inRun cs
  induction cs generalizing inRun with
  | nil => simp [splitRunsGo]
  | cons c cs ih =>
    by_cases hc : p c
    · cases inRun <;> simp [splitRunsGo, hc, ih]
    · simp [splitRunsGo, hc, consOntoHead_ne_nil]

/-- The first fragment of the run splitter is the longest separator-free
leading segment. -/
theorem splitRunsGo_false_head (p : Char → Bool) :
    ∀ cs : List Char, ∃ t, splitRunsGo p false cs =
      (cs.takeWhile (fun c => !p c)) :: t := by
  intro cs
  induction cs with
  | nil => exact ⟨[], rfl⟩
  | cons c cs ih =>
    by_cases hc : p c
    · exact ⟨splitRunsGo p true cs, by simp [splitRunsGo, hc, List.takeWhile_cons]⟩
    · obtain ⟨t, ht⟩ := ih
      exact ⟨t, by simp [splitRunsGo, hc, List.takeWhile_cons, ht, consOntoHead]⟩

/-- The first fragment of the per-character splitter is the longest
separator-free leading segment. -/
theorem splitEach_head (p : Char → Bool) :
    ∀ cs : List Char, ∃ t, splitEach p cs =
      (cs.takeWhile (fun c => !p c)) :: t := by
  intro cs
  induction cs with
  | nil => exact ⟨[], rfl⟩
  | cons c cs ih =>
    by_cases hc : p c
    · exact ⟨splitEach p cs, by simp [splitEach, hc, List.takeWhile_cons]⟩
    · obtain ⟨t, ht⟩ := ih
      exact ⟨t, by simp [splitEach, hc, List.takeWhile_cons, ht, consOntoHead]⟩

/-- Up to empty fragments, the splitter state flag is irrelevant. -/
theorem filter_splitRunsGo_true (p : Char → Bool) (cs : List Char) :
    (splitRunsGo p true cs).filter (fun f => !f.isEmpty) =
      (splitRunsGo p false cs).filter (fun f => !f.isEmpty) := by
  cases cs with
  | nil => rfl
  | cons c cs =>
    by_cases hc : p c
    · simp [splitRunsGo, hc, List.filter_cons]
    · simp [splitRunsGo, hc]

/-- Splitting at maximal separator runs and splitting at every single
separator character produce the same fragments once empty fragments are
dropped. -/
theorem filter_splitRuns_eq_splitEach (p : Char → Bool) :
    ∀ cs : List Char,
      (splitRuns p cs).filter (fun f => !f.isEmpty) =
        (splitEach p cs).filter (fun f => !f.isEmpty) := by
  intro cs
  induction cs with
  | nil => rfl
  | cons c cs ih =>
    by_cases hc : p c
    · have h1 : splitRuns p (c :: cs) = [] :: splitRunsGo p true cs := by
        simp [splitRuns, splitRunsGo, hc]
      have h2 : splitEach p (c :: cs) = [] :: splitEach p cs := by
        simp [splitEach, hc]
      rw [h1, h2, List.filter_cons, List.filter_cons]
      simp only [List.isEmpty_nil, Bool.not_true, if_false]
      rw [filter_splitRunsGo_true]
      exact ih
    · obtain ⟨t, ht⟩ := splitRunsGo_false_head p cs
      obtain ⟨t2, ht2⟩ := splitEach_head p cs
      have h1 : splitRuns p (c :: cs) =
          (c :: cs.takeWhile (fun x => !p x)) :: t := by
        simp [splitRuns, splitRunsGo, hc, ht, consOntoHead]
      have h2 : splitEach p (c :: cs) =
          (c :: cs.takeWhile (fun x => !p x)) :: t2 := by
        simp [splitEach, hc, ht2, consOntoHead]
      rw [h1, h2, List.filter_cons, List.filter_cons]
      simp only [List.isEmpty_cons, Bool.not_false, if_true]
      have key : t.filter (fun f => !f.isEmpty) = t2.filter (fun f => !f.isEmpty) := by
        have h3 := ih
        rw [show splitRuns p cs = splitRunsGo p false cs from rfl, ht, ht2,
          List.filter_cons, List.filter_cons] at h3
        by_cases htw : (cs.takeWhile (fun x => !p x)).isEmpty
        · simpa [htw] using h3
        · have htw' : (cs.takeWhile (fun x => !p x)).isEmpty = false := by
            simpa using htw
          simp only [htw', Bool.not_false, if_true] at h3
          injection h3
      rw [key]

/-- Stripping an empty fragment gives an empty fragment. -/
theorem stripChars_nil : stripChars [] = [] := rfl

/-- Fragment lists that agree after dropping empty fragments still agree
after stripping each fragment and dropping the fragments that became
empty. -/
theorem filter_map_strip_congr (A B : List (List Char))
    (h : A.filter (fun f => !f.isEmpty) = B.filter (fun f => !f.isEmpty)) :
    (A.map stripChars).filter (fun f => !f.isEmpty) =
      (B.map stripChars).filter (fun f => !f.isEmpty) := by
  have aux : ∀ l : List (List Char),
      (l.map stripChars).filter (fun f => !f.isEmpty) =
        ((l.filter (fun f => !f.isEmpty)).map stripChars).filter
          (fun f => !f.isEmpty) := by
    intro l
    induction l with
    | nil => rfl
    | cons f l ih =>
      cases f with
      | nil =>
        simp only [List.map_cons, List.filter_cons, stripChars_nil,
          List.isEmpty_nil, Bool.not_true, if_false]
        exact ih
      | cons a f =>
        simp only [List.map_cons, List.filter_cons, List.isEmpty_cons,
          Bool.not_false, if_true, List.map_cons]
        by_cases hq : (stripChars (a :: f)).isEmpty
        · simp only [hq, Bool.not_true, if_false]
          exact ih
        · have hq' : (stripChars (a :: f)).isEmpty = false := by simpa using hq
          simp only [hq', Bool.not_false, if_true]
          rw [ih]
  rw [aux A, aux B, h]

/-- C3.  `_split_into_sentences` splits on maximal runs of `.`, `!`, `?`
(equivalently, up to the dropped empty fragments, at every single boundary
character), trims whitespace from each fragment, drops empty fragments, and
keeps the order of appearance; the three examples from the spec evaluate as
stated. -/
theorem claim_C3 : ∀ t : String,
    _split_into_sentences t = splitSentencesPerChar t ∧
    _split_into_sentences "Hello. World! How are you?" =
      ["Hello", "World", "How are you"] ∧
    _split_into_sentences "" = [] ∧
    _split_into_sentences "..." = [] := by
  intro t
  refine ⟨?_, by decide, by decide, by decide⟩
  unfold _split_into_sentences splitSentencesPerChar
  exact congrArg (List.map String.mk)
    (filter_map_strip_congr _ _ (filter_splitRuns_eq_splitEach isBoundaryChar t.data))

/-- A stripped fragment has no leading whitespace left to drop. -/
theorem dropWhile_stripChars (l : List Char) :
    List.dropWhile isPySpace (stripChars l) = stripChars l := by
  unfold stripChars
  cases hR : List.rdropWhile isPySpace (List.dropWhile isPySpace l) with
  | nil => rfl
  | cons a R =>
    obtain ⟨t, ht⟩ := List.rdropWhile_prefix isPySpace (List.dropWhile isPySpace l)
    rw [hR] at ht
    have hD : List.dropWhile isPySpace l = a :: (R ++ t) := by rw [← ht]; rfl
    have hlen : 0 < (List.dropWhile isPySpace l).length := by rw [hD]; simp
    have hnot := List.dropWhile_get_zero_not isPySpace l hlen
    have hget : (List.dropWhile isPySpace l).get ⟨0, hlen⟩ = a := by simp [hD]
    rw [hget] at hnot
    rw [List.dropWhile_cons, if_neg hnot]

/-- Stripping is idempotent. -/
theorem stripChars_idem (l : List Char) :
    stripChars (stripChars l) = stripChars l := by
  show List.rdropWhile isPySpace (List.dropWhile isPySpace (stripChars l)) = stripChars l
  rw [dropWhile_stripChars l]
  show List.rdropWhile isPySpace
    (List.rdropWhile isPySpace (List.dropWhile isPySpace l)) = _
  rw [List.rdropWhile_idempotent]
  rfl

/-- Every character of a stripped fragment comes from the fragment. -/
theorem mem_of_mem_stripChars {c : Char} {l : List Char}
    (h : c ∈ stripChars l) : c ∈ l := by
  unfold stripChars List.rdropWhile at h
  rw [List.mem_reverse] at h
  have h2 : c ∈ (List.dropWhile isPySpace l).reverse :=
    (List.dropWhile_suffix isPySpace).sublist.subset h
  rw [List.mem_reverse] at h2
  exact (List.dropWhile_suffix isPySpace).sublist.subset h2

/-- No fragment produced by the run splitter contains a separator
character. -/
theorem splitRunsGo_sep_free (p : Char → Bool) :
    ∀ (inRun : Bool) (cs : List Char) (f : List Char),
      f ∈ splitRunsGo p inRun cs → ∀ c ∈ f, p c = false := by
  intro inRun cs
  induction cs generalizing inRun with
  | nil =>
    intro f hf c hc
    simp only [splitRunsGo, List.mem_singleton] at hf
    subst hf
    simp at hc
  | cons a cs ih =>
    intro f hf c hc
    by_cases ha : p a
    · have ha' : p a = true := ha
      cases inRun with
      | true =>
        simp only [splitRunsGo, ha', if_true] at hf
        exact ih true f hf c hc
      | false =>
        simp only [splitRunsGo, ha', if_true, Bool.false_eq_true, if_false,
          List.mem_cons] at hf
        rcases hf with hf | hf
        · subst hf; simp at hc
        · exact ih true f hf c hc
    · have ha' : p a = false := by simpa using ha
      obtain ⟨t, ht⟩ := splitRunsGo_false_head p cs
      simp only [splitRunsGo, ha', Bool.false_eq_true, if_false, ht, consOntoHead,
        List.mem_cons] at hf
      rcases hf with hf | hf
      · subst hf
        rcases List.mem_cons.mp hc with hc | hc
        · subst hc; exact ha'
        · have := List.mem_takeWhile_imp hc
          simpa using this
      · have hfm : f ∈ splitRunsGo p false cs := by
          rw [ht]; exact List.mem_cons_of_mem _ hf
        exact ih false f hfm c hc

/-- C10.  Every sentence returned by `_split_into_sentences` is non-empty,
carries no leading or trailing whitespace (stripping it again is the
identity), and contains none of the boundary characters `.`, `!`, `?`. -/
theorem claim_C10 : ∀ (t s : String), s ∈ _split_into_sentences t →
    s ≠ "" ∧ pyStrip s = s ∧ ∀ c ∈ s.data, isBoundaryChar c = false := by
  intro t s hs
  unfold _split_into_sentences at hs
  rw [List.mem_map] at hs
  obtain ⟨f, hf, hfs⟩ := hs
  rw [List.mem_filter] at hf
  obtain ⟨hfm, hfne⟩ := hf
  rw [List.mem_map] at hfm
  obtain ⟨g, hg, hgf⟩ := hfm
  subst hfs
  subst hgf
  refine ⟨?_, ?_, ?_⟩
  · intro hcon
    have hdata : stripChars g = [] := congrArg String.data hcon
    rw [hdata] at hfne
    simp at hfne
  · show String.mk (stripChars (stripChars g)) = String.mk (stripChars g)
    rw [stripChars_idem]
  · intro c hc
    have hcg : c ∈ g := mem_of_mem_stripChars hc
    exact splitRunsGo_sep_free isBoundaryChar false t.data g hg c hcg

/-- Witness for C10 on a concrete sentence list. -/
theorem claim_C10_witness :
    ("Hello" : String) ≠ "" ∧ pyStrip "Hello" = "Hello" ∧
      ∀ c ∈ ("Hello" : String).data, isBoundaryChar c = false :=
  claim_C10 "Hello. World! How are you?" "Hello" (by decide)

/-- A conditional one-sentence append, pushed outside the conditional. -/
theorem ite_append_single (c : Prop) [Decidable c] (xs : List String) (s : String) :
    (if c then xs ++ [s] else xs) = xs ++ (if c then [s] else []) := by
  split_ifs <;> simp

/-- A two-way conditional one-sentence append, pushed outside. -/
theorem ite2_append_single (c1 c2 : Prop) [Decidable c1] [Decidable c2]
    (xs : List String) (s1 s2 : String) :
    (if c1 then xs ++ [s1] else if c2 then xs ++ [s2] else xs) =
      xs ++ (if c1 then [s1] else if c2 then [s2] else []) := by
  split_ifs <;> simp

/-- A three-way conditional one-sentence append, pushed outside. -/
theorem ite3_append_single (c1 c2 : Prop) [Decidable c1] [Decidable c2]
    (xs : List String) (s1 s2 s3 : String) :
    (if c1 then xs ++ [s1] else if c2 then xs ++ [s2] else xs ++ [s3]) =
      xs ++ [if c1 then s1 else if c2 then s2 else s3] := by
  split_ifs <;> rfl

/-- A space-join is its first part followed by a joining space before each
remaining part. -/
theorem pyJoin_cons (x : String) (l : List String) :
    pyJoin " " (x :: l) = x ++ tailJoin l := by
  induction l generalizing x with
  | nil => simp [pyJoin, tailJoin]
  | cons y ys ih =>
    show x ++ " " ++ pyJoin " " (y :: ys) = x ++ tailJoin (y :: ys)
    rw [ih y]
    show x ++ " " ++ (y ++ tailJoin ys) = x ++ (" " ++ y ++ tailJoin ys)
    simp [String.append_assoc]

/-- `tailJoin` distributes over list append. -/
theorem tailJoin_append (a b : List String) :
    tailJoin (a ++ b) = tailJoin a ++ tailJoin b := by
  induction a with
  | nil => simp [tailJoin]
  | cons x xs ih => simp [tailJoin, ih, String.append_assoc]

/-- `tailJoin` of a conditional singleton. -/
theorem tailJoin_ite (c : Prop) [Decidable c] (s : String) :
    tailJoin (if c then [s] else []) = if c then " " ++ s else "" := by
  split_ifs <;> simp [tailJoin]

/-- `tailJoin` of a two-way conditional singleton. -/
theorem tailJoin_ite2 (c1 c2 : Prop) [Decidable c1] [Decidable c2] (s1 s2 : String) :
    tailJoin (if c1 then [s1] else if c2 then [s2] else []) =
      if c1 then " " ++ s1 else if c2 then " " ++ s2 else "" := by
  split_ifs <;> simp [tailJoin]

/-- `tailJoin` of a singleton. -/
theorem tailJoin_singleton (s : String) : tailJoin [s] = " " ++ s := by
  simp [tailJoin]

/-- C4.  `_generate_comparison_summary` assembles exactly the spec's
template: the sentences joined by single spaces in the fixed order
(similarity percentage, added, removed, page delta, table delta, closing
qualifier), with the optional sentences emitted only for non-zero counts or
deltas, and it always ends with the single closing qualitative sentence
chosen by the mutually exclusive strict thresholds. -/
theorem claim_C4 : ∀ (score : ℚ) (a r : ℤ) (sd : StructureDiffDict),
    _generate_comparison_summary score a r sd =
      specSummary score a r (sd.page_count_diff.getD 0) (sd.table_count_diff.getD 0) ∧
    ∃ front : String, _generate_comparison_summary score a r sd =
      front ++ specClosingSentence score := by
  intro score a r sd
  have hmain : _generate_comparison_summary score a r sd =
      specSummary score a r (sd.page_count_diff.getD 0) (sd.table_count_diff.getD 0) := by
    simp only [_generate_comparison_summary]
    rw [ite3_append_single, ite2_append_single, ite2_append_single,
      ite_append_single, ite_append_single]
    simp only [List.append_assoc, List.singleton_append, List.cons_append]
    rw [pyJoin_cons]
    simp only [tailJoin_append, tailJoin_ite, tailJoin_ite2, tailJoin_singleton,
      tailJoin]
    simp only [specSummary, specSummaryFront, specClosingSentence]
    simp [String.append_assoc]
  refine ⟨hmain, specSummaryFront score a r (sd.page_count_diff.getD 0)
    (sd.table_count_diff.getD 0) ++ " ", ?_⟩
  rw [hmain]
  rfl

end DocComp
